import Mathlib

/-!
Verification development for the trovo-rs real-time chat protocol client
(`src/chat/entities.rs`, `src/chat/error.rs`, `src/chat/socket.rs`).

The Rust code is shallowly embedded:
* JSON documents are modelled by an inductive `Json` type.  Numbers are
  modelled as integers: every numeric field of this protocol (`gap`,
  `type`, `sender_id`) is integral, and fractional/exponent literals are
  outside the protocol and not modelled.
* serde's derived `Deserialize` implementations are translated field by
  field: an internally tagged enum looks the tag field up and dispatches
  on its exact string value; a struct field without attributes is
  required, a `#[serde(default)]` field falls back to `Default::default()`
  when absent, an `Option` field falls back to `None`; a duplicated
  recognised field is a decode error; unknown fields are ignored.
  Decode failure is modelled by `Option.none` (the embedding does not
  track serde's error messages).
* `u64` arithmetic is modelled on `Nat` with explicit wrapping modulo
  `2 ^ 64` where the Rust code performs arithmetic.
* Channel sends are modelled by explicit state passing: the event queue
  (`chat_messages_sender`) is an `EventChan` recording delivered items
  together with an optional budget after which the receiver is gone, and
  the outbound command queue (`socket_messages_sender`) is a boolean
  liveness flag plus the list of enqueued messages.
* `todo!()` and `unreachable!()` panics are modelled by returning `none`
  from the step functions.
-/

namespace Trovo

/-- A JSON document (`serde_json::Value`, integers only). -/
inductive Json where
  | null : Json
  | bool (b : Bool) : Json
  | num (n : Int) : Json
  | str (s : String) : Json
  | arr (elems : List Json) : Json
  | obj (fields : List (String × Json)) : Json

/-- `ChatToken` from `src/chat/entities.rs`: `{ token: String }`. -/
structure ChatToken where
  token : String
deriving DecidableEq

/-- `PongMessageData` from `src/chat/entities.rs`: `{ gap: u64 }`,
the interval in seconds the server advises between pings. -/
structure PongMessageData where
  gap : Nat
deriving DecidableEq

/-- `ChannelInfo` from `src/chat/entities.rs`: `{ channel_id: String }`. -/
structure ChannelInfo where
  channel_id : String
deriving DecidableEq

/-- `ChatMessageType` from `src/chat/entities.rs`, a `#[repr(u16)]`
enumeration serialised as its numeric code via `serde_repr`. -/
inductive ChatMessageType where
  | Normal
  | Spell
  | MagicSuperCap
  | MagicColorful
  | MagicSpell
  | MagicBulletScreen
  | Subscription
  | System
  | Follow
  | Welcome
  | GiftSub
  | GiftSubDetailed
  | Event
  | Raid
  | CustomSpell
deriving DecidableEq

/-- The numeric code of a `ChatMessageType` (the `#[repr(u16)]` discriminants). -/
def ChatMessageType.code : ChatMessageType → Nat
  | .Normal => 0
  | .Spell => 5
  | .MagicSuperCap => 6
  | .MagicColorful => 7
  | .MagicSpell => 8
  | .MagicBulletScreen => 9
  | .Subscription => 5001
  | .System => 5002
  | .Follow => 5003
  | .Welcome => 5004
  | .GiftSub => 5005
  | .GiftSubDetailed => 5006
  | .Event => 5007
  | .Raid => 5008
  | .CustomSpell => 5009

/-- `ChatMessage` from `src/chat/entities.rs`.  `content_data` is a
`HashMap<String, serde_json::Value>`, modelled as its entry list. -/
structure ChatMessage where
  type_ : ChatMessageType
  content : String
  nick_name : String
  avatar : Option String
  sub_lv : Option String
  medals : List String
  decos : List String
  roles : List String
  message_id : String
  sender_id : Int
  content_data : List (String × Json)
  custom_role : Option String

/-- `ChatMessageData` from `src/chat/entities.rs`:
`{ eid: String, #[serde(default)] chats: Vec<ChatMessage> }`. -/
structure ChatMessageData where
  eid : String
  chats : List ChatMessage

/-- `ChatSocketMessage` from `src/chat/entities.rs`: the tagged wire
messages, `#[serde(tag = "type", rename_all = "UPPERCASE")]`. -/
inductive ChatSocketMessage where
  | Auth (nonce : String) (data : ChatToken)
  | Response (nonce : String)
  | Ping (nonce : String)
  | Pong (nonce : String) (data : PongMessageData)
  | Chat (channel_info : Option ChannelInfo) (data : ChatMessageData)

/-! ### serde decode semantics

The helpers below model the behaviour of serde's derived `Deserialize`
for a struct read from a JSON map: each recognised field must occur at
most once (a duplicate is an error), a required field must occur
exactly once, and a defaulted field that is absent takes its default. -/

/-- All values bound to key `k` in a JSON object, in order. -/
def fieldOccs (fields : List (String × Json)) (k : String) : List Json :=
  (fields.filter (fun p => p.fst = k)).map (fun p => p.snd)

/-- A required struct field: present exactly once and well typed. -/
def reqField {α : Type} (fields : List (String × Json)) (k : String)
    (d : Json → Option α) : Option α :=
  match fieldOccs fields k with
  | [v] => d v
  | _ => none

/-- A defaulted (`#[serde(default)]` or `Option`) struct field: absent
means the default, present means decoded, duplicated means error. -/
def optField {α : Type} (fields : List (String × Json)) (k : String)
    (d : Json → Option α) (dflt : α) : Option α :=
  match fieldOccs fields k with
  | [] => some dflt
  | [v] => d v
  | _ => none

/-- Decode a JSON value as a string. -/
def Json.asStr : Json → Option String
  | .str s => some s
  | _ => none

/-- Decode an `Option<String>` field value: `null` is `None`. -/
def decodeOptStr : Json → Option (Option String)
  | .null => some none
  | .str s => some (some s)
  | _ => none

/-- Decode a `Vec<String>` value. -/
def decodeStrList : Json → Option (List String)
  | .arr xs => xs.mapM Json.asStr
  | _ => none

/-- Decode a `u64` value. -/
def decodeU64 : Json → Option Nat
  | .num n => if 0 ≤ n ∧ n < 2 ^ 64 then some n.toNat else none
  | _ => none

/-- Decode an `i64` value. -/
def decodeI64 : Json → Option Int
  | .num n => if -(2 ^ 63) ≤ n ∧ n < 2 ^ 63 then some n else none
  | _ => none

/-- Decode a `ChatMessageType` (serde_repr: the numeric code). -/
def decodeChatMessageType (j : Json) : Option ChatMessageType :=
  match j with
  | .num 0 => some .Normal
  | .num 5 => some .Spell
  | .num 6 => some .MagicSuperCap
  | .num 7 => some .MagicColorful
  | .num 8 => some .MagicSpell
  | .num 9 => some .MagicBulletScreen
  | .num 5001 => some .Subscription
  | .num 5002 => some .System
  | .num 5003 => some .Follow
  | .num 5004 => some .Welcome
  | .num 5005 => some .GiftSub
  | .num 5006 => some .GiftSubDetailed
  | .num 5007 => some .Event
  | .num 5008 => some .Raid
  | .num 5009 => some .CustomSpell
  | _ => none

/-- Decode a `HashMap<String, serde_json::Value>` value. -/
def decodeJsonMap : Json → Option (List (String × Json))
  | .obj fs => some fs
  | _ => none

/-- Decode a `ChatToken`. -/
def decodeChatToken (j : Json) : Option ChatToken :=
  match j with
  | .obj fs => do
      let t ← reqField fs "token" Json.asStr
      pure ⟨t⟩
  | _ => none

/-- Decode a `PongMessageData`. -/
def decodePongMessageData (j : Json) : Option PongMessageData :=
  match j with
  | .obj fs => do
      let g ← reqField fs "gap" decodeU64
      pure ⟨g⟩
  | _ => none

/-- Decode a `ChannelInfo`. -/
def decodeChannelInfo (j : Json) : Option ChannelInfo :=
  match j with
  | .obj fs => do
      let c ← reqField fs "channel_id" Json.asStr
      pure ⟨c⟩
  | _ => none

/-- Decode an `Option<ChannelInfo>` field value: `null` is `None`. -/
def decodeOptChannelInfo : Json → Option (Option ChannelInfo)
  | .null => some none
  | j => (decodeChannelInfo j).map some

/-- Decode a `ChatMessage` (field attributes as in `src/chat/entities.rs`:
`type`, `content`, `nick_name`, `message_id`, `sender_id` are required;
`avatar`, `sub_lv`, `custom_role` are `Option`; `medals`, `decos`,
`roles`, `content_data` carry `#[serde(default)]`). -/
def decodeChatMessage (j : Json) : Option ChatMessage :=
  match j with
  | .obj fs => do
      let ty ← reqField fs "type" decodeChatMessageType
      let content ← reqField fs "content" Json.asStr
      let nick ← reqField fs "nick_name" Json.asStr
      let avatar ← optField fs "avatar" decodeOptStr none
      let subLv ← optField fs "sub_lv" decodeOptStr none
      let medals ← optField fs "medals" decodeStrList []
      let decos ← optField fs "decos" decodeStrList []
      let roles ← optField fs "roles" decodeStrList []
      let mid ← reqField fs "message_id" Json.asStr
      let sid ← reqField fs "sender_id" decodeI64
      let cdata ← optField fs "content_data" decodeJsonMap []
      let crole ← optField fs "custom_role" decodeOptStr none
      pure ⟨ty, content, nick, avatar, subLv, medals, decos, roles, mid, sid, cdata, crole⟩
  | _ => none

/-- Decode a `Vec<ChatMessage>` value. -/
def decodeChatList : Json → Option (List ChatMessage)
  | .arr xs => xs.mapM decodeChatMessage
  | _ => none

/-- Decode a `ChatMessageData`: `eid` required, `chats` defaulted. -/
def decodeChatMessageData (j : Json) : Option ChatMessageData :=
  match j with
  | .obj fs => do
      let e ← reqField fs "eid" Json.asStr
      let cs ← optField fs "chats" decodeChatList []
      pure ⟨e, cs⟩
  | _ => none

/-- The field set a tagged variant is decoded from: every object entry
except the tag field itself (serde buffers the non-tag entries). -/
def variantFields (fields : List (String × Json)) : List (String × Json) :=
  fields.filter (fun p => p.fst ≠ "type")

/-- Dispatch on the resolved `type` tag.  `rename_all = "UPPERCASE"`
renames the variants to `AUTH`, `RESPONSE`, `PING`, `PONG`, `CHAT`, and
serde matches the tag against those names exactly (case-sensitively);
any other tag value is an unknown-variant decode error. -/
def dispatchVariant (tag : String) (fs : List (String × Json)) :
    Option ChatSocketMessage :=
  if tag = "AUTH" then do
    let nonce ← reqField fs "nonce" Json.asStr
    let data ← reqField fs "data" decodeChatToken
    pure (.Auth nonce data)
  else if tag = "RESPONSE" then do
    let nonce ← reqField fs "nonce" Json.asStr
    pure (.Response nonce)
  else if tag = "PING" then do
    let nonce ← reqField fs "nonce" Json.asStr
    pure (.Ping nonce)
  else if tag = "PONG" then do
    let nonce ← reqField fs "nonce" Json.asStr
    let data ← reqField fs "data" decodePongMessageData
    pure (.Pong nonce data)
  else if tag = "CHAT" then do
    let ci ← optField fs "channel_info" decodeOptChannelInfo none
    let data ← reqField fs "data" decodeChatMessageData
    pure (.Chat ci data)
  else none

/-- Decode a `ChatSocketMessage` from a JSON document: the document must
be an object, its `type` field is read as the tag (missing, duplicated
or non-string tags are decode errors) and the variant is decoded from
the remaining fields. -/
def decodeChatSocketMessage (j : Json) : Option ChatSocketMessage :=
  match j with
  | .obj fs => do
      let tag ← reqField fs "type" Json.asStr
      dispatchVariant tag (variantFields fs)
  | _ => none

/-! ### Byte-level JSON parsing (`serde_json::from_slice` / `from_str`)

`handle_message` in `src/chat/socket.rs` deserialises text frames with
`serde_json::from_str` and binary frames with `serde_json::from_slice`.
Both read the same byte sequence (`from_str` operates on the string's
UTF-8 bytes), so the embedding defines one byte-level reader and lets
the string entry point encode to UTF-8 first.  Recursion is bounded by
fuel; one unit of fuel is spent per recursive call and at least one
input byte is consumed before every recursive call, so fuel
`length + 1` is always sufficient. -/

/-- JSON insignificant whitespace bytes: space, tab, LF, CR. -/
def isWsByte (b : Nat) : Bool := b = 32 || b = 9 || b = 10 || b = 13

/-- Drop leading JSON whitespace. -/
def skipWs : List Nat → List Nat
  | [] => []
  | b :: bs => if isWsByte b then skipWs bs else b :: bs

/-- An ASCII digit byte. -/
def isDigitByte (b : Nat) : Bool := 48 ≤ b && b ≤ 57

/-- A UTF-8 continuation byte (`0x80`–`0xBF`). -/
def isContByte (b : Nat) : Bool := 128 ≤ b && b ≤ 191

/-- Decode one UTF-8 scalar value from the front of a byte list,
rejecting overlong encodings, surrogates and out-of-range values. -/
def utf8DecodeChar : List Nat → Option (Nat × List Nat)
  | [] => none
  | b :: bs =>
    if b < 128 then some (b, bs)
    else if 194 ≤ b ∧ b ≤ 223 then
      match bs with
      | b1 :: r =>
        if isContByte b1 then some ((b - 192) * 64 + (b1 - 128), r) else none
      | [] => none
    else if 224 ≤ b ∧ b ≤ 239 then
      match bs with
      | b1 :: b2 :: r =>
        let lo1 := if b = 224 then 160 else 128
        let hi1 := if b = 237 then 159 else 191
        if lo1 ≤ b1 ∧ b1 ≤ hi1 ∧ isContByte b2 then
          some ((b - 224) * 4096 + (b1 - 128) * 64 + (b2 - 128), r)
        else none
      | _ => none
    else if 240 ≤ b ∧ b ≤ 244 then
      match bs with
      | b1 :: b2 :: b3 :: r =>
        let lo1 := if b = 240 then 144 else 128
        let hi1 := if b = 244 then 143 else 191
        if lo1 ≤ b1 ∧ b1 ≤ hi1 ∧ isContByte b2 ∧ isContByte b3 then
          some ((b - 240) * 262144 + (b1 - 128) * 4096 + (b2 - 128) * 64 + (b3 - 128), r)
        else none
      | _ => none
    else none

/-- The value of one hex digit byte. -/
def hexVal (b : Nat) : Option Nat :=
  if 48 ≤ b ∧ b ≤ 57 then some (b - 48)
  else if 97 ≤ b ∧ b ≤ 102 then some (b - 87)
  else if 65 ≤ b ∧ b ≤ 70 then some (b - 55)
  else none

/-- Read four hex digit bytes as a code unit. -/
def pHex4 : List Nat → Option (Nat × List Nat)
  | a :: b :: c :: d :: r => do
      let x1 ← hexVal a
      let x2 ← hexVal b
      let x3 ← hexVal c
      let x4 ← hexVal d
      pure (((x1 * 16 + x2) * 16 + x3) * 16 + x4, r)
  | _ => none

/-- Read the body of a JSON string literal (the opening quote already
consumed), handling escapes including `\uXXXX` with surrogate pairs,
up to and including the closing quote. -/
def pStringBody : Nat → List Nat → Option (List Char × List Nat)
  | 0, _ => none
  | fuel + 1, bs =>
    match bs with
    | [] => none
    | 34 :: rest => some ([], rest)
    | 92 :: rest =>
      match rest with
      | 34 :: r => do
          let (cs, r') ← pStringBody fuel r
          pure ('"' :: cs, r')
      | 92 :: r => do
          let (cs, r') ← pStringBody fuel r
          pure ('\\' :: cs, r')
      | 47 :: r => do
          let (cs, r') ← pStringBody fuel r
          pure ('/' :: cs, r')
      | 98 :: r => do
          let (cs, r') ← pStringBody fuel r
          pure (Char.ofNat 8 :: cs, r')
      | 102 :: r => do
          let (cs, r') ← pStringBody fuel r
          pure (Char.ofNat 12 :: cs, r')
      | 110 :: r => do
          let (cs, r') ← pStringBody fuel r
          pure ('\n' :: cs, r')
      | 114 :: r => do
          let (cs, r') ← pStringBody fuel r
          pure ('\r' :: cs, r')
      | 116 :: r => do
          let (cs, r') ← pStringBody fuel r
          pure ('\t' :: cs, r')
      | 117 :: r => do
          let (cp, r1) ← pHex4 r
          if 55296 ≤ cp ∧ cp ≤ 56319 then
            match r1 with
            | 92 :: 117 :: r2 => do
                let (lo, r3) ← pHex4 r2
                if 56320 ≤ lo ∧ lo ≤ 57343 then do
                  let (cs, r') ← pStringBody fuel r3
                  pure (Char.ofNat (65536 + (cp - 55296) * 1024 + (lo - 56320)) :: cs, r')
                else none
            | _ => none
          else if 56320 ≤ cp ∧ cp ≤ 57343 then none
          else do
            let (cs, r') ← pStringBody fuel r1
            pure (Char.ofNat cp :: cs, r')
      | _ => none
    | b :: _ =>
      if b < 32 then none
      else do
        let (cp, rest) ← utf8DecodeChar bs
        let (cs, r') ← pStringBody fuel rest
        pure (Char.ofNat cp :: cs, r')

/-- The decimal value of a digit byte list. -/
def digitsToNat (ds : List Nat) : Nat := ds.foldl (fun a b => a * 10 + (b - 48)) 0

/-- Read a JSON number.  The protocol's numeric fields are integral;
a fraction or exponent part is not modelled and rejected. -/
def pNumber (bs : List Nat) : Option (Int × List Nat) :=
  let signed : Bool × List Nat :=
    match bs with
    | 45 :: r => (true, r)
    | _ => (false, bs)
  let mk : Nat → Int := fun n => if signed.fst then -(n : Int) else (n : Int)
  match signed.snd with
  | [] => none
  | b :: rest =>
    if b = 48 then
      match rest with
      | [] => some (mk 0, [])
      | b2 :: _ =>
        if isDigitByte b2 ∨ b2 = 46 ∨ b2 = 101 ∨ b2 = 69 then none
        else some (mk 0, rest)
    else if isDigitByte b then
      let ds := rest.takeWhile isDigitByte
      let r := rest.dropWhile isDigitByte
      match r with
      | [] => some (mk (digitsToNat (b :: ds)), [])
      | b2 :: _ =>
        if b2 = 46 ∨ b2 = 101 ∨ b2 = 69 then none
        else some (mk (digitsToNat (b :: ds)), r)
    else none

mutual

/-- Read one JSON value (leading whitespace allowed). -/
def pVal : Nat → List Nat → Option (Json × List Nat)
  | 0, _ => none
  | fuel + 1, bs =>
    match skipWs bs with
    | 123 :: rest =>
      match skipWs rest with
      | 125 :: rest' => some (.obj [], rest')
      | rest' => do
          let (ms, r) ← pMembers fuel rest'
          pure (.obj ms, r)
    | 91 :: rest =>
      match skipWs rest with
      | 93 :: rest' => some (.arr [], rest')
      | _ => do
          let (xs, r) ← pElems fuel rest
          pure (.arr xs, r)
    | 34 :: rest => do
        let (cs, r) ← pStringBody (fuel + 1) rest
        pure (.str (String.mk cs), r)
    | 110 :: 117 :: 108 :: 108 :: rest => some (.null, rest)
    | 116 :: 114 :: 117 :: 101 :: rest => some (.bool true, rest)
    | 102 :: 97 :: 108 :: 115 :: 101 :: rest => some (.bool false, rest)
    | bs' => do
        let (n, r) ← pNumber bs'
        pure (.num n, r)

/-- Read the members of a JSON object, positioned at the first key's
opening quote, up to and including the closing brace. -/
def pMembers : Nat → List Nat → Option (List (String × Json) × List Nat)
  | 0, _ => none
  | fuel + 1, bs =>
    match bs with
    | 34 :: rest => do
        let (k, r1) ← pStringBody (fuel + 1) rest
        match skipWs r1 with
        | 58 :: r2 => do
            let (v, r3) ← pVal fuel r2
            match skipWs r3 with
            | 44 :: r4 => do
                let (ms, r5) ← pMembers fuel (skipWs r4)
                pure ((String.mk k, v) :: ms, r5)
            | 125 :: r4 => pure ([(String.mk k, v)], r4)
            | _ => none
        | _ => none
    | _ => none

/-- Read the elements of a JSON array, positioned before the first
element, up to and including the closing bracket. -/
def pElems : Nat → List Nat → Option (List Json × List Nat)
  | 0, _ => none
  | fuel + 1, bs => do
      let (v, r1) ← pVal fuel bs
      match skipWs r1 with
      | 44 :: r2 => do
          let (xs, r3) ← pElems fuel r2
          pure (v :: xs, r3)
      | 93 :: r2 => pure ([v], r2)
      | _ => none

end

/-- `serde_json::from_slice::<ChatSocketMessage>`: parse the bytes as a
single JSON document (trailing whitespace allowed, trailing content a
decode error) and decode the tagged message. -/
def fromSlice (bs : List Nat) : Option ChatSocketMessage :=
  match pVal (bs.length + 1) bs with
  | some (j, rest) => if (skipWs rest).isEmpty then decodeChatSocketMessage j else none
  | none => none

/-- UTF-8 encode one scalar value. -/
def utf8EncodeChar (c : Char) : List Nat :=
  let n := c.toNat
  if n < 128 then [n]
  else if n < 2048 then [192 + n / 64, 128 + n % 64]
  else if n < 65536 then [224 + n / 4096, 128 + (n / 64) % 64, 128 + n % 64]
  else [240 + n / 262144, 128 + (n / 4096) % 64, 128 + (n / 64) % 64, 128 + n % 64]

/-- The UTF-8 bytes of a string. -/
def utf8Encode (s : String) : List Nat :=
  s.data.foldr (fun c acc => utf8EncodeChar c ++ acc) []

/-- `serde_json::from_str::<ChatSocketMessage>`: `from_str` deserialises
from the string's UTF-8 byte representation. -/
def fromStr (s : String) : Option ChatSocketMessage :=
  fromSlice (utf8Encode s)

/-! ### The socket actors (`src/chat/socket.rs`) -/

/-- `Continuation` from `src/chat/socket.rs`. -/
inductive Continuation where
  | Continue
  | Stop
deriving DecidableEq

/-- A websocket close frame (`tungstenite::protocol::CloseFrame`):
a close code and a reason string. -/
structure CloseFrame where
  code : Nat
  reason : String
deriving DecidableEq

/-- A websocket message (`tungstenite::Message`). -/
inductive Message where
  | text (s : String)
  | binary (bytes : List Nat)
  | ping (payload : List Nat)
  | pong (payload : List Nat)
  | close (frame : Option CloseFrame)

/-- `ChatConnectError` from `src/chat/error.rs` (the wrapped
`tungstenite`/`serde_json` error values are not modelled). -/
inductive ChatConnectError where
  | WebSocket
  | Serde
  | SocketClosed
deriving DecidableEq

/-- `ChatMessageStreamError` from `src/chat/error.rs` (the wrapped
`tungstenite`/`serde_json` error values are not modelled; the close
frame of `SocketClosed` is). -/
inductive ChatMessageStreamError where
  | WebSocket
  | Serde
  | SocketClosed (frame : Option CloseFrame)
  | PingTimeout
deriving DecidableEq

/-- `u64` wrap-around bound. -/
def U64LIM : Nat := 2 ^ 64

/-- `u64` increment (wrapping, as in release builds). -/
def u64add1 (a : Nat) : Nat := (a + 1) % U64LIM

/-- `u64` subtraction (wrapping, as in release builds), for `a b < 2^64`. -/
def u64sub (a b : Nat) : Nat := (a + U64LIM - b) % U64LIM

/-- The value of a decimal digit sequence; `none` when empty or when a
non-digit occurs. -/
def decDigitsVal (cs : List Char) : Option Nat :=
  match cs with
  | [] => none
  | _ =>
    if cs.all (fun c => '0' ≤ c ∧ c ≤ '9') then
      some (cs.foldl (fun a c => a * 10 + (c.toNat - 48)) 0)
    else none

/-- Rust's `str::parse::<u64>`: an optional leading `+`, then one or
more decimal digits, value below `2^64`; anything else fails. -/
def parseU64 (s : String) : Option Nat :=
  let cs :=
    match s.data with
    | '+' :: rest => rest
    | other => other
  match decDigitsVal cs with
  | some v => if v < U64LIM then some v else none
  | none => none

/-- The heartbeat state `Ping` from `src/chat/socket.rs`.  `interval`
is a `Duration` only ever constructed by `Duration::from_secs`, so it
is modelled in whole seconds. -/
structure Ping where
  interval : Nat
  iteration : Nat
  acknowledged : Nat
deriving DecidableEq

/-- `Ping::default()`: `DEFAULT_PING_INTERVAL` is 30 seconds. -/
def Ping.default : Ping := ⟨30, 0, 0⟩

/-- The event queue toward the consumer (`chat_messages_sender`).
`budget = none` models a receiver that stays alive; `budget = some n`
models a receiver that is gone after `n` more successful sends.
`sent` records the delivered items in order. -/
structure EventChan where
  budget : Option Nat
  sent : List (Except ChatMessageStreamError ChatMessage)

/-- One `send` on the event queue: the new channel and whether the
send succeeded (`false` models `SendError`: receiver dropped). -/
def EventChan.send (c : EventChan) (x : Except ChatMessageStreamError ChatMessage) :
    EventChan × Bool :=
  match c.budget with
  | none => ({ c with sent := c.sent ++ [x] }, true)
  | some 0 => (c, false)
  | some (n + 1) => (⟨some n, c.sent ++ [x]⟩, true)

/-- The state owned by `SocketMessagesReader`: the auth nonce, the
pending one-shot auth sender (`auth.1`, `some ()` while not yet taken),
and the heartbeat state. -/
structure ReaderState where
  authNonce : String
  authPending : Option Unit
  ping : Ping

/-- The `for chat in data.chats` delivery loop of the `Chat` arm of
`handle_socket_message`: send each chat in order; a failed send means
the receiver was dropped, so stop. -/
def deliverChats (chan : EventChan) : List ChatMessage → EventChan × Continuation
  | [] => (chan, .Continue)
  | c :: rest =>
    let s := chan.send (.ok c)
    if s.snd then deliverChats s.fst rest else (s.fst, .Stop)

/-- Result of `handle_socket_message`: updated state, updated event
queue, the value sent on the one-shot auth channel (if any), and the
returned continuation. -/
structure SockOut where
  st : ReaderState
  chan : EventChan
  signal : Option (Except ChatConnectError Unit)
  cont : Continuation

/-- `SocketMessagesReader::handle_socket_message`.  `none` models the
`unreachable!()` panic of the catch-all arm (`Auth` and `Ping` are
never received in normal operation). -/
def handleSocketMessage (st : ReaderState) (chan : EventChan) :
    ChatSocketMessage → Option SockOut
  | .Response nonce =>
    if st.authNonce = nonce then
      match st.authPending with
      | some _ => some ⟨{ st with authPending := none }, chan, some (.ok ()), .Continue⟩
      | none => some ⟨st, chan, none, .Continue⟩
    else some ⟨st, chan, none, .Continue⟩
  | .Pong nonce data =>
    match parseU64 nonce with
    | none => some ⟨st, chan, none, .Continue⟩
    | some iteration =>
      if iteration > st.ping.acknowledged then
        some ⟨{ st with
                ping := { st.ping with acknowledged := iteration, interval := data.gap } },
              chan, none, .Continue⟩
      else some ⟨st, chan, none, .Continue⟩
  | .Chat _ data =>
    let d := deliverChats chan data.chats
    some ⟨st, d.fst, none, d.snd⟩
  | _ => none

/-- Result of `handle_message`: as `SockOut`, but the continuation may
be an error. -/
structure HandleOut where
  st : ReaderState
  chan : EventChan
  signal : Option (Except ChatConnectError Unit)
  out : Except ChatMessageStreamError Continuation

/-- `SocketMessagesReader::handle_message`.  Text and binary frames are
deserialised (failure propagates as a `Serde` error), a close frame is
the `SocketClosed` error carrying the frame, and `none` models the
`todo!()` panics of the protocol-level `Ping`/`Pong` arms. -/
def handleMessage (st : ReaderState) (chan : EventChan) : Message → Option HandleOut
  | .text s =>
    match fromStr s with
    | some m => (handleSocketMessage st chan m).map
        (fun o => ⟨o.st, o.chan, o.signal, .ok o.cont⟩)
    | none => some ⟨st, chan, none, .error .Serde⟩
  | .binary bs =>
    match fromSlice bs with
    | some m => (handleSocketMessage st chan m).map
        (fun o => ⟨o.st, o.chan, o.signal, .ok o.cont⟩)
    | none => some ⟨st, chan, none, .error .Serde⟩
  | .ping _ => none
  | .pong _ => none
  | .close r => some ⟨st, chan, none, .error (.SocketClosed r)⟩

/-- Which branch of the `select!` in `SocketMessagesReader::next` fired:
cancellation, the heartbeat sleep, an item from the transport (a frame
or a transport error), or end of the transport stream. -/
inductive ReaderEvent where
  | cancelled
  | tick
  | frame (m : Message)
  | transportErr
  | streamEnd

/-- Result of one `SocketMessagesReader::next` call, with the messages
enqueued on the outbound command queue in `cmds`. -/
structure StepOut where
  st : ReaderState
  chan : EventChan
  cmds : List ChatSocketMessage
  signal : Option (Except ChatConnectError Unit)
  out : Except ChatMessageStreamError Continuation

/-- `SocketMessagesReader::next`.  `cmdAlive` says whether the outbound
command queue's receiver is still alive (a dead receiver makes the ping
send fail, which the code treats as a graceful stop). -/
def readerNext (cmdAlive : Bool) (st : ReaderState) (chan : EventChan) :
    ReaderEvent → Option StepOut
  | .cancelled => some ⟨st, chan, [], none, .ok .Stop⟩
  | .tick =>
    let it := u64add1 st.ping.iteration
    let st' := { st with ping := { st.ping with iteration := it } }
    if u64sub it st'.ping.acknowledged > 2 then
      some ⟨st', chan, [], none, .error .PingTimeout⟩
    else if cmdAlive then
      some ⟨st', chan, [.Ping (toString it)], none, .ok .Continue⟩
    else
      some ⟨st', chan, [], none, .ok .Stop⟩
  | .frame m =>
    (handleMessage st chan m).map (fun o => ⟨o.st, o.chan, [], o.signal, o.out⟩)
  | .transportErr => some ⟨st, chan, [], none, .error .WebSocket⟩
  | .streamEnd => some ⟨st, chan, [], none, .ok .Stop⟩

/-- One iteration of the task body of `SocketMessagesReader::spawn`:
on `Ok(Stop)` break without emitting, on `Err` send the error to the
event queue (best effort) and break, on `Ok(Continue)` keep looping.
The boolean is `true` when the loop breaks. -/
def spawnIter (chan : EventChan) :
    Except ChatMessageStreamError Continuation → EventChan × Bool
  | .ok .Stop => (chan, true)
  | .ok .Continue => (chan, false)
  | .error e => ((chan.send (.error e)).fst, true)

/-- The fixed auth nonce used by `ChatMessageStream::connect`. -/
def connectAuthNonce : String := "authenticate"

/-- The handshake message `connect` serialises and sends first. -/
def connectAuthMessage (tok : ChatToken) : ChatSocketMessage :=
  .Auth connectAuthNonce tok

/-- The reader state `connect` spawns the inbound actor with. -/
def connectInitialState : ReaderState :=
  ⟨connectAuthNonce, some (), Ping.default⟩

/-- The tail of `connect`: `auth_response_receiver.await` mapped through
`map_err(|_| ChatConnectError::SocketClosed)??`.  `none` models the
one-shot sender dropped without a value (reader gone before
authentication), `some r` models a received handshake result. -/
def connectResult (signal : Option (Except ChatConnectError Unit)) :
    Except ChatConnectError Unit :=
  match signal with
  | some (.ok _) => .ok ()
  | some (.error e) => .error e
  | none => .error .SocketClosed

/-! ### Helper lemmas -/

theorem u64lim_eq : U64LIM = 18446744073709551616 := by
  unfold U64LIM
  norm_num

theorem u64add1_eq (a : Nat) (h : a + 1 < U64LIM) : u64add1 a = a + 1 := by
  unfold u64add1
  exact Nat.mod_eq_of_lt h

theorem u64sub_eq (a b : Nat) (hba : b ≤ a) (ha : a < U64LIM) : u64sub a b = a - b := by
  unfold u64sub
  rw [u64lim_eq] at *
  omega

theorem bind_const_none {α β : Type} (o : Option α) :
    (o.bind fun _ => (none : Option β)) = none := by
  cases o <;> rfl

theorem reqField_of_empty {α : Type} (fs : List (String × Json)) (k : String)
    (d : Json → Option α) (h : fieldOccs fs k = []) : reqField fs k d = none := by
  unfold reqField
  rw [h]

theorem handleMessage_no_pingTimeout (st : ReaderState) (chan : EventChan) (m : Message)
    (o : HandleOut) (h : handleMessage st chan m = some o) :
    o.out ≠ .error .PingTimeout := by
  cases m with
  | text s =>
    cases hf : fromStr s with
    | some msg =>
      simp only [handleMessage, hf, Option.map_eq_some'] at h
      obtain ⟨a, _, rfl⟩ := h
      simp
    | none =>
      simp only [handleMessage, hf, Option.some.injEq] at h
      subst h
      simp
  | binary bs =>
    cases hf : fromSlice bs with
    | some msg =>
      simp only [handleMessage, hf, Option.map_eq_some'] at h
      obtain ⟨a, _, rfl⟩ := h
      simp
    | none =>
      simp only [handleMessage, hf, Option.some.injEq] at h
      subst h
      simp
  | ping payload => exact absurd h (by simp [handleMessage])
  | pong payload => exact absurd h (by simp [handleMessage])
  | close r =>
    simp only [handleMessage, Option.some.injEq] at h
    subst h
    simp

/-! ### Claims -/

/-- C1: handling a decoded `Pong {nonce, data}`: a nonce parsing to a
counter at most the acknowledged counter leaves the acknowledged counter
and the interval unchanged; a nonce parsing to a strictly greater
counter sets the acknowledged counter to exactly that value and the
interval to exactly `data.gap` seconds; an unparsable nonce leaves the
whole heartbeat state unchanged and the actor continues without error. -/
theorem c1_pong_handling (st : ReaderState) (chan : EventChan) (nonce : String)
    (d : PongMessageData) :
    (parseU64 nonce = none →
      handleSocketMessage st chan (.Pong nonce d) = some ⟨st, chan, none, .Continue⟩) ∧
    (∀ v, parseU64 nonce = some v → v ≤ st.ping.acknowledged →
      handleSocketMessage st chan (.Pong nonce d) = some ⟨st, chan, none, .Continue⟩) ∧
    (∀ v, parseU64 nonce = some v → st.ping.acknowledged < v →
      handleSocketMessage st chan (.Pong nonce d) =
        some ⟨{ st with ping := { st.ping with acknowledged := v, interval := d.gap } },
              chan, none, .Continue⟩) := by
  refine ⟨fun h => ?_, fun v hv hle => ?_, fun v hv hgt => ?_⟩
  · simp [handleSocketMessage, h]
  · simp [handleSocketMessage, hv, Nat.not_lt.mpr hle]
  · simp [handleSocketMessage, hv, hgt]

/-- Witness for C1 at a concrete stale, fresh and unparsable nonce. -/
theorem c1_pong_handling_witness :
    handleSocketMessage ⟨"authenticate", none, ⟨30, 6, 5⟩⟩ ⟨none, []⟩ (.Pong "7" ⟨10⟩) =
      some ⟨⟨"authenticate", none, ⟨10, 6, 7⟩⟩, ⟨none, []⟩, none, .Continue⟩ ∧
    handleSocketMessage ⟨"authenticate", none, ⟨30, 6, 5⟩⟩ ⟨none, []⟩ (.Pong "2" ⟨20⟩) =
      some ⟨⟨"authenticate", none, ⟨30, 6, 5⟩⟩, ⟨none, []⟩, none, .Continue⟩ ∧
    handleSocketMessage ⟨"authenticate", none, ⟨30, 6, 5⟩⟩ ⟨none, []⟩ (.Pong "-2" ⟨20⟩) =
      some ⟨⟨"authenticate", none, ⟨30, 6, 5⟩⟩, ⟨none, []⟩, none, .Continue⟩ :=
  ⟨(c1_pong_handling ⟨"authenticate", none, ⟨30, 6, 5⟩⟩ ⟨none, []⟩ "7" ⟨10⟩).2.2 7
      (by rfl) (by decide),
   (c1_pong_handling ⟨"authenticate", none, ⟨30, 6, 5⟩⟩ ⟨none, []⟩ "2" ⟨20⟩).2.1 2
      (by rfl) (by decide),
   (c1_pong_handling ⟨"authenticate", none, ⟨30, 6, 5⟩⟩ ⟨none, []⟩ "-2" ⟨20⟩).1 (by rfl)⟩

/-- C2: on a heartbeat tick the sent counter is incremented by one;
then, if sent minus acknowledged exceeds 2, the step fails with
`PingTimeout` — and no other event ever produces `PingTimeout` —
otherwise a `Ping` whose nonce is the sent counter rendered in decimal
is enqueued on the outbound command queue, and a dead command-queue
receiver makes the actor stop gracefully without an error. -/
theorem c2_heartbeat_tick (cmdAlive : Bool) (st : ReaderState) (chan : EventChan)
    (hinv : st.ping.acknowledged ≤ st.ping.iteration)
    (hlim : st.ping.iteration + 1 < U64LIM) :
    (readerNext cmdAlive st chan .tick =
      if st.ping.iteration + 1 - st.ping.acknowledged > 2 then
        some ⟨{ st with ping := { st.ping with iteration := st.ping.iteration + 1 } },
              chan, [], none, .error .PingTimeout⟩
      else if cmdAlive then
        some ⟨{ st with ping := { st.ping with iteration := st.ping.iteration + 1 } },
              chan, [.Ping (toString (st.ping.iteration + 1))], none, .ok .Continue⟩
      else
        some ⟨{ st with ping := { st.ping with iteration := st.ping.iteration + 1 } },
              chan, [], none, .ok .Stop⟩) ∧
    (∀ ev : ReaderEvent, ev ≠ .tick → ∀ o : StepOut,
      readerNext cmdAlive st chan ev = some o → o.out ≠ .error .PingTimeout) := by
  have hadd : u64add1 st.ping.iteration = st.ping.iteration + 1 := u64add1_eq _ hlim
  have hsub : u64sub (st.ping.iteration + 1) st.ping.acknowledged =
      st.ping.iteration + 1 - st.ping.acknowledged :=
    u64sub_eq _ _ (le_trans hinv (Nat.le_succ _)) hlim
  constructor
  · simp only [readerNext, hadd, hsub]
  · intro ev hev o h
    cases ev with
    | cancelled =>
      simp only [readerNext, Option.some.injEq] at h
      subst h
      simp
    | tick => exact absurd rfl hev
    | frame m =>
      simp only [readerNext, Option.map_eq_some'] at h
      obtain ⟨a, ha, rfl⟩ := h
      exact handleMessage_no_pingTimeout st chan m a ha
    | transportErr =>
      simp only [readerNext, Option.some.injEq] at h
      subst h
      simp
    | streamEnd =>
      simp only [readerNext, Option.some.injEq] at h
      subst h
      simp

/-- Witness for C2: a tick with two outstanding pings times out; a tick
with none outstanding enqueues the decimal-nonce ping. -/
theorem c2_heartbeat_tick_witness :
    readerNext true ⟨"authenticate", none, ⟨30, 5, 1⟩⟩ ⟨none, []⟩ .tick =
      some ⟨⟨"authenticate", none, ⟨30, 6, 1⟩⟩, ⟨none, []⟩, [], none, .error .PingTimeout⟩ ∧
    readerNext true ⟨"authenticate", none, ⟨30, 5, 5⟩⟩ ⟨none, []⟩ .tick =
      some ⟨⟨"authenticate", none, ⟨30, 6, 5⟩⟩, ⟨none, []⟩, [.Ping "6"], none, .ok .Continue⟩ := by
  constructor
  · have h := (c2_heartbeat_tick true ⟨"authenticate", none, ⟨30, 5, 1⟩⟩ ⟨none, []⟩
        (by decide) (by rw [u64lim_eq]; norm_num)).1
    rw [if_pos (by decide)] at h
    exact h
  · have h := (c2_heartbeat_tick true ⟨"authenticate", none, ⟨30, 5, 5⟩⟩ ⟨none, []⟩
        (by decide) (by rw [u64lim_eq]; norm_num)).1
    rw [if_neg (by decide), if_pos rfl] at h
    exact h

theorem deliverChats_alive (sent : List (Except ChatMessageStreamError ChatMessage))
    (cs : List ChatMessage) :
    deliverChats ⟨none, sent⟩ cs = (⟨none, sent ++ cs.map Except.ok⟩, .Continue) := by
  induction cs generalizing sent with
  | nil => simp [deliverChats]
  | cons c rest ih => simp [deliverChats, EventChan.send, ih]

theorem deliverChats_budget (sent : List (Except ChatMessageStreamError ChatMessage))
    (k : Nat) (cs : List ChatMessage) :
    deliverChats ⟨some k, sent⟩ cs =
      if cs.length ≤ k then
        (⟨some (k - cs.length), sent ++ cs.map Except.ok⟩, .Continue)
      else
        (⟨some 0, sent ++ (cs.take k).map Except.ok⟩, .Stop) := by
  induction cs generalizing sent k with
  | nil => simp [deliverChats]
  | cons c rest ih =>
    cases k with
    | zero => simp [deliverChats, EventChan.send]
    | succ n =>
      have hstep : deliverChats ⟨some (n + 1), sent⟩ (c :: rest) =
          deliverChats ⟨some n, sent ++ [Except.ok c]⟩ rest := rfl
      rw [hstep, ih]
      by_cases hle : rest.length ≤ n
      · rw [if_pos hle, if_pos (by simpa using Nat.succ_le_succ hle)]
        simp [Nat.succ_sub_succ]
      · rw [if_neg hle, if_neg (by simp only [List.length_cons]; omega)]
        simp

/-- C3: `connect` sends an `Auth` message with the fixed nonce
`"authenticate"` and the token, and spawns the reader with that pending
nonce; a `Response` matching the pending nonce fulfils the one-shot
signal with success and clears it (so later matches are ignored), a
non-matching `Response` is ignored, the signal value is only ever
produced by a matching `Response` while pending and is always success;
`connect` resolves successfully on a fulfilled signal and fails with
`SocketClosed` when the signal's sender is dropped unfulfilled. -/
theorem c3_connect_handshake (tok : ChatToken) (st : ReaderState) (chan : EventChan)
    (nonce : String) :
    (connectAuthMessage tok = .Auth "authenticate" tok) ∧
    (connectInitialState.authNonce = "authenticate" ∧
      connectInitialState.authPending = some ()) ∧
    (st.authPending = some () → st.authNonce = nonce →
      handleSocketMessage st chan (.Response nonce) =
        some ⟨{ st with authPending := none }, chan, some (.ok ()), .Continue⟩) ∧
    (st.authPending = none →
      handleSocketMessage st chan (.Response nonce) = some ⟨st, chan, none, .Continue⟩) ∧
    (st.authNonce ≠ nonce →
      handleSocketMessage st chan (.Response nonce) = some ⟨st, chan, none, .Continue⟩) ∧
    (∀ m o, handleSocketMessage st chan m = some o → o.signal ≠ none →
      m = .Response st.authNonce ∧ st.authPending = some () ∧ o.signal = some (.ok ())) ∧
    (connectResult (some (.ok ())) = .ok ()) ∧
    (connectResult none = .error .SocketClosed) := by
  refine ⟨rfl, ⟨rfl, rfl⟩, fun hp he => ?_, fun hp => ?_, fun he => ?_, ?_, rfl, rfl⟩
  · simp [handleSocketMessage, if_pos he, hp]
  · by_cases he : st.authNonce = nonce <;> simp [handleSocketMessage, he, hp]
  · simp [handleSocketMessage, if_neg he]
  · intro m o hm hsig
    cases m with
    | Auth n t => exact absurd hm (by simp [handleSocketMessage])
    | Ping n => exact absurd hm (by simp [handleSocketMessage])
    | Response n =>
      by_cases he : st.authNonce = n
      · cases hp : st.authPending with
        | some u =>
          cases u
          simp only [handleSocketMessage, if_pos he, hp, Option.some.injEq] at hm
          subst hm
          exact ⟨by rw [he], rfl, rfl⟩
        | none =>
          simp only [handleSocketMessage, if_pos he, hp, Option.some.injEq] at hm
          subst hm
          exact absurd rfl hsig
      · simp only [handleSocketMessage, if_neg he, Option.some.injEq] at hm
        subst hm
        exact absurd rfl hsig
    | Pong n d =>
      cases hp : parseU64 n with
      | none =>
        simp only [handleSocketMessage, hp, Option.some.injEq] at hm
        subst hm
        exact absurd rfl hsig
      | some v =>
        by_cases hgt : st.ping.acknowledged < v
        · simp only [handleSocketMessage, hp, if_pos hgt, Option.some.injEq] at hm
          subst hm
          exact absurd rfl hsig
        · simp only [handleSocketMessage, hp, if_neg hgt, Option.some.injEq] at hm
          subst hm
          exact absurd rfl hsig
    | Chat ci d =>
      simp only [handleSocketMessage, Option.some.injEq] at hm
      subst hm
      exact absurd rfl hsig

/-- Witness for C3: the matching handshake `Response` fulfils the
signal; a different nonce is ignored. -/
theorem c3_connect_handshake_witness :
    handleSocketMessage connectInitialState ⟨none, []⟩ (.Response "authenticate") =
      some ⟨⟨"authenticate", none, Ping.default⟩, ⟨none, []⟩, some (.ok ()), .Continue⟩ ∧
    handleSocketMessage ⟨"authenticate", none, Ping.default⟩ ⟨none, []⟩ (.Response "other") =
      some ⟨⟨"authenticate", none, Ping.default⟩, ⟨none, []⟩, none, .Continue⟩ :=
  ⟨(c3_connect_handshake ⟨"t"⟩ connectInitialState ⟨none, []⟩ "authenticate").2.2.1 rfl rfl,
   (c3_connect_handshake ⟨"t"⟩ ⟨"authenticate", none, Ping.default⟩ ⟨none, []⟩
      "other").2.2.2.2.1 (by decide)⟩

/-- C4: a decoded `Chat` frame with N chat events delivers exactly those
N events to the event queue in the batch's original order; if the event
queue's receiver is gone during delivery, the actor stops (gracefully,
via the `Stop` continuation, not an error). -/
theorem c4_chat_batch (st : ReaderState) (chan : EventChan)
    (ci : Option ChannelInfo) (data : ChatMessageData) :
    (chan.budget = none →
      handleSocketMessage st chan (.Chat ci data) =
        some ⟨st, ⟨none, chan.sent ++ data.chats.map Except.ok⟩, none, .Continue⟩) ∧
    (∀ k, chan.budget = some k → k < data.chats.length →
      handleSocketMessage st chan (.Chat ci data) =
        some ⟨st, ⟨some 0, chan.sent ++ (data.chats.take k).map Except.ok⟩, none, .Stop⟩) ∧
    (∀ k, chan.budget = some k → data.chats.length ≤ k →
      handleSocketMessage st chan (.Chat ci data) =
        some ⟨st, ⟨some (k - data.chats.length), chan.sent ++ data.chats.map Except.ok⟩,
              none, .Continue⟩) := by
  obtain ⟨b, sent⟩ := chan
  refine ⟨fun h => ?_, fun k hk hlt => ?_, fun k hk hle => ?_⟩
  · cases h
    simp [handleSocketMessage, deliverChats_alive]
  · cases hk
    simp [handleSocketMessage, deliverChats_budget, if_neg (Nat.not_le.mpr hlt)]
  · cases hk
    simp [handleSocketMessage, deliverChats_budget, if_pos hle]

/-- A concrete chat event used by witnesses. -/
def sampleChat (i : Nat) : ChatMessage :=
  ⟨.Normal, toString i, "nick", none, none, [], [], [], toString i, 0, [], none⟩

/-- Witness for C4: a two-event batch delivered in order to a live
queue, and cut short with a graceful stop when the receiver is gone
after one send. -/
theorem c4_chat_batch_witness :
    handleSocketMessage ⟨"authenticate", none, Ping.default⟩ ⟨none, []⟩
        (.Chat none ⟨"e", [sampleChat 1, sampleChat 2]⟩) =
      some ⟨⟨"authenticate", none, Ping.default⟩,
            ⟨none, [.ok (sampleChat 1), .ok (sampleChat 2)]⟩, none, .Continue⟩ ∧
    handleSocketMessage ⟨"authenticate", none, Ping.default⟩ ⟨some 1, []⟩
        (.Chat none ⟨"e", [sampleChat 1, sampleChat 2]⟩) =
      some ⟨⟨"authenticate", none, Ping.default⟩,
            ⟨some 0, [.ok (sampleChat 1)]⟩, none, .Stop⟩ := by
  constructor
  · have h := (c4_chat_batch ⟨"authenticate", none, Ping.default⟩ ⟨none, []⟩ none
        ⟨"e", [sampleChat 1, sampleChat 2]⟩).1 rfl
    simpa using h
  · have h := (c4_chat_batch ⟨"authenticate", none, Ping.default⟩ ⟨some 1, []⟩ none
        ⟨"e", [sampleChat 1, sampleChat 2]⟩).2.1 1 rfl (by decide)
    simpa using h

/-- C5 counterexample: the tag mapping is case-sensitive — a frame whose
`type` is `"chat"` or `"Chat"` is a decode error while the same frame
with `"CHAT"` decodes, so the claimed case-insensitive equality fails. -/
theorem c5_counterexample :
    decodeChatSocketMessage
        (.obj [("type", .str "chat"), ("data", .obj [("eid", .str "e")])]) = none ∧
    decodeChatSocketMessage
        (.obj [("type", .str "Chat"), ("data", .obj [("eid", .str "e")])]) = none ∧
    decodeChatSocketMessage
        (.obj [("type", .str "CHAT"), ("data", .obj [("eid", .str "e")])]) =
      some (.Chat none ⟨"e", []⟩) :=
  ⟨rfl, rfl, rfl⟩

/-- C5 (amended): frame decoding is dispatched on the `type` field with
a case-sensitive exact match against the fixed tag set
`{AUTH, RESPONSE, PING, PONG, CHAT}`; any other tag value — including
other casings such as `"chat"` — is a decode error, not silently
ignored. -/
theorem c5_tag_dispatch (fs gs : List (String × Json)) (tag nonce : String) :
    (decodeChatSocketMessage (.obj fs) =
      (reqField fs "type" Json.asStr).bind (fun t => dispatchVariant t (variantFields fs))) ∧
    (¬ (tag = "AUTH" ∨ tag = "RESPONSE" ∨ tag = "PING" ∨ tag = "PONG" ∨ tag = "CHAT") →
      dispatchVariant tag gs = none) ∧
    (reqField gs "nonce" Json.asStr = some nonce →
      dispatchVariant "PING" gs = some (.Ping nonce) ∧
      dispatchVariant "RESPONSE" gs = some (.Response nonce)) := by
  refine ⟨rfl, fun h => ?_, fun h => ⟨?_, ?_⟩⟩
  · push_neg at h
    obtain ⟨h1, h2, h3, h4, h5⟩ := h
    simp [dispatchVariant, h1, h2, h3, h4, h5]
  · show dispatchVariant "PING" gs = some (.Ping nonce)
    unfold dispatchVariant
    rw [if_neg (by decide), if_neg (by decide), if_pos rfl]
    rw [h]
    rfl
  · show dispatchVariant "RESPONSE" gs = some (.Response nonce)
    unfold dispatchVariant
    rw [if_neg (by decide), if_pos rfl]
    rw [h]
    rfl

/-- Witness for C5 at a concrete lower-case tag and a concrete `PING`. -/
theorem c5_tag_dispatch_witness :
    dispatchVariant "chat" [("nonce", .str "1")] = none ∧
    dispatchVariant "PING" [("nonce", .str "1")] = some (.Ping "1") :=
  ⟨(c5_tag_dispatch [] [("nonce", .str "1")] "chat" "1").2.1 (by decide),
   ((c5_tag_dispatch [] [("nonce", .str "1")] "chat" "1").2.2 rfl).1⟩

theorem optField_of_empty {α : Type} (fs : List (String × Json)) (k : String)
    (d : Json → Option α) (dflt : α) (h : fieldOccs fs k = []) :
    optField fs k d dflt = some dflt := by
  unfold optField
  rw [h]

theorem decodeChatMessage_obj (fs : List (String × Json)) : decodeChatMessage (.obj fs) =
    (reqField fs "type" decodeChatMessageType).bind fun ty =>
    (reqField fs "content" Json.asStr).bind fun content =>
    (reqField fs "nick_name" Json.asStr).bind fun nick =>
    (optField fs "avatar" decodeOptStr none).bind fun avatar =>
    (optField fs "sub_lv" decodeOptStr none).bind fun subLv =>
    (optField fs "medals" decodeStrList []).bind fun medals =>
    (optField fs "decos" decodeStrList []).bind fun decos =>
    (optField fs "roles" decodeStrList []).bind fun roles =>
    (reqField fs "message_id" Json.asStr).bind fun mid =>
    (reqField fs "sender_id" decodeI64).bind fun sid =>
    (optField fs "content_data" decodeJsonMap []).bind fun cdata =>
    (optField fs "custom_role" decodeOptStr none).bind fun crole =>
    some ⟨ty, content, nick, avatar, subLv, medals, decos, roles, mid, sid, cdata, crole⟩ :=
  rfl

theorem decodeChatMessageData_obj (fs : List (String × Json)) :
    decodeChatMessageData (.obj fs) =
      (reqField fs "eid" Json.asStr).bind fun e =>
      (optField fs "chats" decodeChatList []).bind fun cs =>
      some ⟨e, cs⟩ :=
  rfl

theorem dispatchVariant_chat_eq (fs : List (String × Json)) : dispatchVariant "CHAT" fs =
    (optField fs "channel_info" decodeOptChannelInfo none).bind fun ci =>
    (reqField fs "data" decodeChatMessageData).bind fun data =>
    some (.Chat ci data) :=
  rfl

theorem dispatchVariant_auth_eq (fs : List (String × Json)) : dispatchVariant "AUTH" fs =
    (reqField fs "nonce" Json.asStr).bind fun nonce =>
    (reqField fs "data" decodeChatToken).bind fun data =>
    some (.Auth nonce data) :=
  rfl

theorem dispatchVariant_response_eq (fs : List (String × Json)) :
    dispatchVariant "RESPONSE" fs =
      (reqField fs "nonce" Json.asStr).bind fun nonce => some (.Response nonce) :=
  rfl

theorem dispatchVariant_ping_eq (fs : List (String × Json)) : dispatchVariant "PING" fs =
    (reqField fs "nonce" Json.asStr).bind fun nonce => some (.Ping nonce) :=
  rfl

theorem dispatchVariant_pong_eq (fs : List (String × Json)) : dispatchVariant "PONG" fs =
    (reqField fs "nonce" Json.asStr).bind fun nonce =>
    (reqField fs "data" decodePongMessageData).bind fun data =>
    some (.Pong nonce data) :=
  rfl

theorem decodeChatToken_obj (fs : List (String × Json)) : decodeChatToken (.obj fs) =
    (reqField fs "token" Json.asStr).bind fun t => some ⟨t⟩ :=
  rfl

theorem decodePongMessageData_obj (fs : List (String × Json)) :
    decodePongMessageData (.obj fs) =
      (reqField fs "gap" decodeU64).bind fun g => some ⟨g⟩ :=
  rfl

theorem decodeChannelInfo_obj (fs : List (String × Json)) : decodeChannelInfo (.obj fs) =
    (reqField fs "channel_id" Json.asStr).bind fun c => some ⟨c⟩ :=
  rfl

theorem reqField_of_bad {α : Type} (fs : List (String × Json)) (k : String)
    (d : Json → Option α) (v : Json) (h : fieldOccs fs k = [v]) (hv : d v = none) :
    reqField fs k d = none := by
  unfold reqField
  rw [h]
  exact hv

theorem optField_of_bad {α : Type} (fs : List (String × Json)) (k : String)
    (d : Json → Option α) (dflt : α) (v : Json) (h : fieldOccs fs k = [v])
    (hv : d v = none) : optField fs k d dflt = none := by
  unfold optField
  rw [h]
  exact hv

theorem decodeChatMessage_defaults (fs : List (String × Json)) (m : ChatMessage)
    (h : decodeChatMessage (.obj fs) = some m) :
    optField fs "medals" decodeStrList [] = some m.medals ∧
    optField fs "decos" decodeStrList [] = some m.decos ∧
    optField fs "roles" decodeStrList [] = some m.roles ∧
    optField fs "content_data" decodeJsonMap [] = some m.content_data := by
  rw [decodeChatMessage_obj] at h
  simp only [Option.bind_eq_some] at h
  obtain ⟨ty, _, content, _, nick, _, avatar, _, subLv, _, medals, hme, decos, hde,
    roles, hro, mid, _, sid, _, cdata, hcd, crole, _, hm⟩ := h
  cases hm
  exact ⟨hme, hde, hro, hcd⟩

theorem decodeChatMessageData_default (fs : List (String × Json)) (d : ChatMessageData)
    (h : decodeChatMessageData (.obj fs) = some d) :
    optField fs "chats" decodeChatList [] = some d.chats := by
  rw [decodeChatMessageData_obj] at h
  simp only [Option.bind_eq_some] at h
  obtain ⟨e, _, cs, hcs, hm⟩ := h
  cases hm
  exact hcs

/-- C6 counterexample: a `CHAT` frame missing `data.chats`, and a chat
event missing `medals`, `decos`, `roles` and `content_data`, both decode
successfully with defaulted fields (the fields carry `#[serde(default)]`),
contradicting the claim that they are decode errors. -/
theorem c6_counterexample :
    decodeChatSocketMessage
        (.obj [("type", .str "CHAT"), ("data", .obj [("eid", .str "e")])]) =
      some (.Chat none ⟨"e", []⟩) ∧
    decodeChatMessage
        (.obj [("type", .num 0), ("content", .str "hi"), ("nick_name", .str "n"),
          ("message_id", .str "m"), ("sender_id", .num 3)]) =
      some ⟨.Normal, "hi", "n", none, none, [], [], [], "m", 3, [], none⟩ :=
  ⟨rfl, rfl⟩

/-- C6 (amended): for a frame whose tag resolves to a known kind,
decoding fails whenever a field without a serde default is missing
(e.g. a chat event's `type`, `content`, `nick_name`, `message_id` or
`sender_id`, the batch's `eid`, or a `CHAT` frame's `data`), while the
`#[serde(default)]` fields (`data.chats`, `medals`, `decos`, `roles`,
`content_data`) are defaulted to empty when absent rather than being
decode errors. -/
theorem c6_required_fields (fs : List (String × Json)) :
    -- a field without a serde default that is missing is a decode error
    (fieldOccs fs "nonce" = [] →
      dispatchVariant "AUTH" fs = none ∧ dispatchVariant "RESPONSE" fs = none ∧
      dispatchVariant "PING" fs = none ∧ dispatchVariant "PONG" fs = none) ∧
    (fieldOccs fs "data" = [] →
      dispatchVariant "AUTH" fs = none ∧ dispatchVariant "PONG" fs = none ∧
      dispatchVariant "CHAT" fs = none) ∧
    (fieldOccs fs "token" = [] → decodeChatToken (.obj fs) = none) ∧
    (fieldOccs fs "gap" = [] → decodePongMessageData (.obj fs) = none) ∧
    (fieldOccs fs "channel_id" = [] → decodeChannelInfo (.obj fs) = none) ∧
    (fieldOccs fs "type" = [] → decodeChatMessage (.obj fs) = none) ∧
    (fieldOccs fs "content" = [] → decodeChatMessage (.obj fs) = none) ∧
    (fieldOccs fs "nick_name" = [] → decodeChatMessage (.obj fs) = none) ∧
    (fieldOccs fs "message_id" = [] → decodeChatMessage (.obj fs) = none) ∧
    (fieldOccs fs "sender_id" = [] → decodeChatMessage (.obj fs) = none) ∧
    (fieldOccs fs "eid" = [] → decodeChatMessageData (.obj fs) = none) ∧
    -- a present field whose value its decoder rejects (wrong type) is a
    -- decode error, for defaulted and required fields alike
    (∀ v, fieldOccs fs "nonce" = [v] → Json.asStr v = none →
      dispatchVariant "AUTH" fs = none ∧ dispatchVariant "RESPONSE" fs = none ∧
      dispatchVariant "PING" fs = none ∧ dispatchVariant "PONG" fs = none) ∧
    (∀ v, fieldOccs fs "data" = [v] → decodeChatToken v = none →
      dispatchVariant "AUTH" fs = none) ∧
    (∀ v, fieldOccs fs "data" = [v] → decodePongMessageData v = none →
      dispatchVariant "PONG" fs = none) ∧
    (∀ v, fieldOccs fs "data" = [v] → decodeChatMessageData v = none →
      dispatchVariant "CHAT" fs = none) ∧
    (∀ v, fieldOccs fs "channel_info" = [v] → decodeOptChannelInfo v = none →
      dispatchVariant "CHAT" fs = none) ∧
    (∀ v, fieldOccs fs "token" = [v] → Json.asStr v = none →
      decodeChatToken (.obj fs) = none) ∧
    (∀ v, fieldOccs fs "gap" = [v] → decodeU64 v = none →
      decodePongMessageData (.obj fs) = none) ∧
    (∀ v, fieldOccs fs "channel_id" = [v] → Json.asStr v = none →
      decodeChannelInfo (.obj fs) = none) ∧
    (∀ v, fieldOccs fs "eid" = [v] → Json.asStr v = none →
      decodeChatMessageData (.obj fs) = none) ∧
    (∀ v, fieldOccs fs "chats" = [v] → decodeChatList v = none →
      decodeChatMessageData (.obj fs) = none) ∧
    (∀ v, fieldOccs fs "type" = [v] → decodeChatMessageType v = none →
      decodeChatMessage (.obj fs) = none) ∧
    (∀ v, fieldOccs fs "content" = [v] → Json.asStr v = none →
      decodeChatMessage (.obj fs) = none) ∧
    (∀ v, fieldOccs fs "nick_name" = [v] → Json.asStr v = none →
      decodeChatMessage (.obj fs) = none) ∧
    (∀ v, fieldOccs fs "avatar" = [v] → decodeOptStr v = none →
      decodeChatMessage (.obj fs) = none) ∧
    (∀ v, fieldOccs fs "sub_lv" = [v] → decodeOptStr v = none →
      decodeChatMessage (.obj fs) = none) ∧
    (∀ v, fieldOccs fs "medals" = [v] → decodeStrList v = none →
      decodeChatMessage (.obj fs) = none) ∧
    (∀ v, fieldOccs fs "decos" = [v] → decodeStrList v = none →
      decodeChatMessage (.obj fs) = none) ∧
    (∀ v, fieldOccs fs "roles" = [v] → decodeStrList v = none →
      decodeChatMessage (.obj fs) = none) ∧
    (∀ v, fieldOccs fs "message_id" = [v] → Json.asStr v = none →
      decodeChatMessage (.obj fs) = none) ∧
    (∀ v, fieldOccs fs "sender_id" = [v] → decodeI64 v = none →
      decodeChatMessage (.obj fs) = none) ∧
    (∀ v, fieldOccs fs "content_data" = [v] → decodeJsonMap v = none →
      decodeChatMessage (.obj fs) = none) ∧
    (∀ v, fieldOccs fs "custom_role" = [v] → decodeOptStr v = none →
      decodeChatMessage (.obj fs) = none) ∧
    -- the #[serde(default)] fields are defaulted to empty when absent
    (∀ m, decodeChatMessage (.obj fs) = some m →
      fieldOccs fs "medals" = [] → m.medals = []) ∧
    (∀ m, decodeChatMessage (.obj fs) = some m →
      fieldOccs fs "decos" = [] → m.decos = []) ∧
    (∀ m, decodeChatMessage (.obj fs) = some m →
      fieldOccs fs "roles" = [] → m.roles = []) ∧
    (∀ m, decodeChatMessage (.obj fs) = some m →
      fieldOccs fs "content_data" = [] → m.content_data = []) ∧
    (∀ d, decodeChatMessageData (.obj fs) = some d →
      fieldOccs fs "chats" = [] → d.chats = []) := by
  refine ⟨fun h => ⟨?_, ?_, ?_, ?_⟩, fun h => ⟨?_, ?_, ?_⟩, fun h => ?_, fun h => ?_,
    fun h => ?_, fun h => ?_, fun h => ?_, fun h => ?_, fun h => ?_, fun h => ?_,
    fun h => ?_,
    fun v hv hbad => ⟨?_, ?_, ?_, ?_⟩, fun v hv hbad => ?_, fun v hv hbad => ?_,
    fun v hv hbad => ?_, fun v hv hbad => ?_, fun v hv hbad => ?_, fun v hv hbad => ?_,
    fun v hv hbad => ?_, fun v hv hbad => ?_, fun v hv hbad => ?_, fun v hv hbad => ?_,
    fun v hv hbad => ?_, fun v hv hbad => ?_, fun v hv hbad => ?_, fun v hv hbad => ?_,
    fun v hv hbad => ?_, fun v hv hbad => ?_, fun v hv hbad => ?_, fun v hv hbad => ?_,
    fun v hv hbad => ?_, fun v hv hbad => ?_, fun v hv hbad => ?_,
    fun m hm h => ?_, fun m hm h => ?_, fun m hm h => ?_, fun m hm h => ?_,
    fun d hd h => ?_⟩
  · rw [dispatchVariant_auth_eq]
    simp only [reqField_of_empty _ _ _ h, Option.none_bind]
  · rw [dispatchVariant_response_eq]
    simp only [reqField_of_empty _ _ _ h, Option.none_bind]
  · rw [dispatchVariant_ping_eq]
    simp only [reqField_of_empty _ _ _ h, Option.none_bind]
  · rw [dispatchVariant_pong_eq]
    simp only [reqField_of_empty _ _ _ h, Option.none_bind]
  · rw [dispatchVariant_auth_eq]
    simp only [reqField_of_empty _ _ _ h, Option.none_bind, bind_const_none]
  · rw [dispatchVariant_pong_eq]
    simp only [reqField_of_empty _ _ _ h, Option.none_bind, bind_const_none]
  · rw [dispatchVariant_chat_eq]
    simp only [reqField_of_empty _ _ _ h, Option.none_bind, bind_const_none]
  · rw [decodeChatToken_obj]
    simp only [reqField_of_empty _ _ _ h, Option.none_bind]
  · rw [decodePongMessageData_obj]
    simp only [reqField_of_empty _ _ _ h, Option.none_bind]
  · rw [decodeChannelInfo_obj]
    simp only [reqField_of_empty _ _ _ h, Option.none_bind]
  · rw [decodeChatMessage_obj]
    simp only [reqField_of_empty _ _ _ h, Option.none_bind, bind_const_none]
  · rw [decodeChatMessage_obj]
    simp only [reqField_of_empty _ _ _ h, Option.none_bind, bind_const_none]
  · rw [decodeChatMessage_obj]
    simp only [reqField_of_empty _ _ _ h, Option.none_bind, bind_const_none]
  · rw [decodeChatMessage_obj]
    simp only [reqField_of_empty _ _ _ h, Option.none_bind, bind_const_none]
  · rw [decodeChatMessage_obj]
    simp only [reqField_of_empty _ _ _ h, Option.none_bind, bind_const_none]
  · rw [decodeChatMessageData_obj]
    simp only [reqField_of_empty _ _ _ h, Option.none_bind]
  · rw [dispatchVariant_auth_eq]
    simp only [reqField_of_bad _ _ _ _ hv hbad, Option.none_bind]
  · rw [dispatchVariant_response_eq]
    simp only [reqField_of_bad _ _ _ _ hv hbad, Option.none_bind]
  · rw [dispatchVariant_ping_eq]
    simp only [reqField_of_bad _ _ _ _ hv hbad, Option.none_bind]
  · rw [dispatchVariant_pong_eq]
    simp only [reqField_of_bad _ _ _ _ hv hbad, Option.none_bind]
  · rw [dispatchVariant_auth_eq]
    simp only [reqField_of_bad _ _ _ _ hv hbad, Option.none_bind, bind_const_none]
  · rw [dispatchVariant_pong_eq]
    simp only [reqField_of_bad _ _ _ _ hv hbad, Option.none_bind, bind_const_none]
  · rw [dispatchVariant_chat_eq]
    simp only [reqField_of_bad _ _ _ _ hv hbad, Option.none_bind, bind_const_none]
  · rw [dispatchVariant_chat_eq]
    simp only [optField_of_bad _ _ _ _ _ hv hbad, Option.none_bind]
  · rw [decodeChatToken_obj]
    simp only [reqField_of_bad _ _ _ _ hv hbad, Option.none_bind]
  · rw [decodePongMessageData_obj]
    simp only [reqField_of_bad _ _ _ _ hv hbad, Option.none_bind]
  · rw [decodeChannelInfo_obj]
    simp only [reqField_of_bad _ _ _ _ hv hbad, Option.none_bind]
  · rw [decodeChatMessageData_obj]
    simp only [reqField_of_bad _ _ _ _ hv hbad, Option.none_bind]
  · rw [decodeChatMessageData_obj]
    simp only [optField_of_bad _ _ _ _ _ hv hbad, Option.none_bind, bind_const_none]
  · rw [decodeChatMessage_obj]
    simp only [reqField_of_bad _ _ _ _ hv hbad, Option.none_bind, bind_const_none]
  · rw [decodeChatMessage_obj]
    simp only [reqField_of_bad _ _ _ _ hv hbad, Option.none_bind, bind_const_none]
  · rw [decodeChatMessage_obj]
    simp only [reqField_of_bad _ _ _ _ hv hbad, Option.none_bind, bind_const_none]
  · rw [decodeChatMessage_obj]
    simp only [optField_of_bad _ _ _ _ _ hv hbad, Option.none_bind, bind_const_none]
  · rw [decodeChatMessage_obj]
    simp only [optField_of_bad _ _ _ _ _ hv hbad, Option.none_bind, bind_const_none]
  · rw [decodeChatMessage_obj]
    simp only [optField_of_bad _ _ _ _ _ hv hbad, Option.none_bind, bind_const_none]
  · rw [decodeChatMessage_obj]
    simp only [optField_of_bad _ _ _ _ _ hv hbad, Option.none_bind, bind_const_none]
  · rw [decodeChatMessage_obj]
    simp only [optField_of_bad _ _ _ _ _ hv hbad, Option.none_bind, bind_const_none]
  · rw [decodeChatMessage_obj]
    simp only [reqField_of_bad _ _ _ _ hv hbad, Option.none_bind, bind_const_none]
  · rw [decodeChatMessage_obj]
    simp only [reqField_of_bad _ _ _ _ hv hbad, Option.none_bind, bind_const_none]
  · rw [decodeChatMessage_obj]
    simp only [optField_of_bad _ _ _ _ _ hv hbad, Option.none_bind, bind_const_none]
  · rw [decodeChatMessage_obj]
    simp only [optField_of_bad _ _ _ _ _ hv hbad, Option.none_bind, bind_const_none]
  · have h0 := (decodeChatMessage_defaults fs m hm).1
    rw [optField_of_empty _ _ _ _ h] at h0
    exact (Option.some.injEq _ _ ▸ h0).symm
  · have h0 := (decodeChatMessage_defaults fs m hm).2.1
    rw [optField_of_empty _ _ _ _ h] at h0
    exact (Option.some.injEq _ _ ▸ h0).symm
  · have h0 := (decodeChatMessage_defaults fs m hm).2.2.1
    rw [optField_of_empty _ _ _ _ h] at h0
    exact (Option.some.injEq _ _ ▸ h0).symm
  · have h0 := (decodeChatMessage_defaults fs m hm).2.2.2
    rw [optField_of_empty _ _ _ _ h] at h0
    exact (Option.some.injEq _ _ ▸ h0).symm
  · have h0 := decodeChatMessageData_default fs d hd
    rw [optField_of_empty _ _ _ _ h] at h0
    exact (Option.some.injEq _ _ ▸ h0).symm

/-- Witness for C6 at concrete frames: a chat event with only `type`
fails (missing `content`), a `gap` of the wrong type fails, a `PING`
with no `nonce` fails, and the defaulted-field conjunct applied to a
minimal decodable event. -/
theorem c6_required_fields_witness :
    decodeChatMessage (.obj [("type", .num 0)]) = none ∧
    decodePongMessageData (.obj [("gap", .str "x")]) = none ∧
    dispatchVariant "PING" [] = none ∧
    ChatMessage.medals ⟨.Normal, "hi", "n", none, none, [], [], [], "m", 3, [], none⟩ = [] := by
  obtain ⟨_, _, _, _, _, _, hcontent, _, _, _, _, _, _, _, _, _, _, _, _, _, _, _, _, _,
    _, _, _, _, _, _, _, _, _, _, _, _, _, _⟩ := c6_required_fields [("type", .num 0)]
  obtain ⟨_, _, _, _, _, _, _, _, _, _, _, _, _, _, _, _, _, hgap, _, _, _, _, _, _,
    _, _, _, _, _, _, _, _, _, _, _, _, _, _⟩ := c6_required_fields [("gap", .str "x")]
  obtain ⟨hping, _, _, _, _, _, _, _, _, _, _, _, _, _, _, _, _, _, _, _, _, _, _, _,
    _, _, _, _, _, _, _, _, _, _, _, _, _, _⟩ :=
    c6_required_fields ([] : List (String × Json))
  obtain ⟨_, _, _, _, _, _, _, _, _, _, _, _, _, _, _, _, _, _, _, _, _, _, _, _,
    _, _, _, _, _, _, _, _, _, hmeddef, _, _, _, _⟩ :=
    c6_required_fields [("type", .num 0), ("content", .str "hi"), ("nick_name", .str "n"),
      ("message_id", .str "m"), ("sender_id", .num 3)]
  exact ⟨hcontent rfl, hgap (.str "x") rfl rfl, (hping rfl).2.2.1,
    hmeddef ⟨.Normal, "hi", "n", none, none, [], [], [], "m", 3, [], none⟩ rfl rfl⟩

/-- C7: a close frame from the peer is the `SocketClosed` error carrying
the close frame (and its reason), not a silent stop; the spawn loop
delivers an error exactly once to a live event queue and then breaks,
while a graceful stop emits nothing. -/
theorem c7_close_frame (st : ReaderState) (chan : EventChan) (r : Option CloseFrame)
    (e : ChatMessageStreamError) :
    (handleMessage st chan (.close r) = some ⟨st, chan, none, .error (.SocketClosed r)⟩) ∧
    (chan.budget = none →
      spawnIter chan (.error e) = (⟨none, chan.sent ++ [.error e]⟩, true)) ∧
    (spawnIter chan (.ok .Stop) = (chan, true)) := by
  refine ⟨rfl, fun h => ?_, rfl⟩
  obtain ⟨b, sent⟩ := chan
  cases h
  simp [spawnIter, EventChan.send]

/-- Witness for C7 at the spec's scenario: a close frame with reason
`"bye"` yields the peer-closed error carrying `"bye"`, delivered once. -/
theorem c7_close_frame_witness :
    handleMessage ⟨"authenticate", none, Ping.default⟩ ⟨none, []⟩
        (.close (some ⟨1000, "bye"⟩)) =
      some ⟨⟨"authenticate", none, Ping.default⟩, ⟨none, []⟩, none,
            .error (.SocketClosed (some ⟨1000, "bye"⟩))⟩ ∧
    spawnIter ⟨none, []⟩ (.error (.SocketClosed (some ⟨1000, "bye"⟩))) =
      (⟨none, [.error (.SocketClosed (some ⟨1000, "bye"⟩))]⟩, true) :=
  ⟨(c7_close_frame ⟨"authenticate", none, Ping.default⟩ ⟨none, []⟩ (some ⟨1000, "bye"⟩)
      (.SocketClosed (some ⟨1000, "bye"⟩))).1,
   (c7_close_frame ⟨"authenticate", none, Ping.default⟩ ⟨none, []⟩ (some ⟨1000, "bye"⟩)
      (.SocketClosed (some ⟨1000, "bye"⟩))).2.1 rfl⟩

/-- C8: for every JSON text, handling a text frame containing it and
handling a binary frame containing its UTF-8 bytes produce the same
result — both branches deserialise the same byte sequence
(`serde_json::from_str` reads the string's UTF-8 bytes exactly as
`from_slice` reads the slice). -/
theorem c8_text_binary_equiv (st : ReaderState) (chan : EventChan) (s : String) :
    handleMessage st chan (.text s) = handleMessage st chan (.binary (utf8Encode s)) :=
  rfl

/-- C9 counterexample: from an invariant-satisfying state (sent counter
0, acknowledged 0), a `Pong` whose nonce parses to 5 sets the
acknowledged counter to 5, strictly above the sent counter — the
claimed invariant `acknowledged ≤ iteration` is not preserved. -/
theorem c9_counterexample :
    handleSocketMessage ⟨"authenticate", some (), ⟨30, 0, 0⟩⟩ ⟨none, []⟩
        (.Pong "5" ⟨10⟩) =
      some ⟨⟨"authenticate", some (), ⟨10, 0, 5⟩⟩, ⟨none, []⟩, none, .Continue⟩ ∧
    ¬ ((5 : Nat) ≤ (0 : Nat)) ∧
    u64sub 1 5 ≠ 1 - 5 :=
  ⟨rfl, by decide, by decide⟩

/-- C9 (amended): the heartbeat tick preserves `acknowledged ≤
iteration`, and `Pong` handling preserves it provided every parseable
nonce is at most the sent counter (a `Pong` whose parsed nonce exceeds
the sent counter violates it, per the counterexample); under the
invariant, the tick's `u64` subtraction does not underflow — it equals
the mathematical difference. -/
theorem c9_invariant (cmdAlive : Bool) (st : ReaderState) (chan : EventChan)
    (hinv : st.ping.acknowledged ≤ st.ping.iteration) :
    (∀ nonce d o, (∀ v, parseU64 nonce = some v → v ≤ st.ping.iteration) →
      handleSocketMessage st chan (.Pong nonce d) = some o →
      o.st.ping.acknowledged ≤ o.st.ping.iteration) ∧
    (∀ o, st.ping.iteration + 1 < U64LIM →
      readerNext cmdAlive st chan .tick = some o →
      o.st.ping.acknowledged ≤ o.st.ping.iteration) ∧
    (st.ping.iteration < U64LIM →
      u64sub st.ping.iteration st.ping.acknowledged =
        st.ping.iteration - st.ping.acknowledged) := by
  refine ⟨fun nonce d o hv h => ?_, fun o hlim h => ?_, fun hlt => ?_⟩
  · cases hp : parseU64 nonce with
    | none =>
      simp only [handleSocketMessage, hp, Option.some.injEq] at h
      subst h
      exact hinv
    | some v =>
      by_cases hgt : st.ping.acknowledged < v
      · simp only [handleSocketMessage, hp, if_pos hgt, Option.some.injEq] at h
        subst h
        exact hv v hp
      · simp only [handleSocketMessage, hp, if_neg hgt, Option.some.injEq] at h
        subst h
        exact hinv
  · have hadd : u64add1 st.ping.iteration = st.ping.iteration + 1 := u64add1_eq _ hlim
    simp only [readerNext, hadd] at h
    split at h
    · cases h
      exact le_trans hinv (Nat.le_succ _)
    · split at h <;> cases h <;> exact le_trans hinv (Nat.le_succ _)
  · exact u64sub_eq _ _ hinv hlt

/-- Witness for C9: a stale pong preserves the invariant, and the
subtraction is exact at a concrete in-range state. -/
theorem c9_invariant_witness :
    ((5 : Nat) ≤ (6 : Nat)) ∧ u64sub 6 5 = 6 - 5 := by
  have hmain := c9_invariant true ⟨"authenticate", none, ⟨30, 6, 5⟩⟩ ⟨none, []⟩ (by decide)
  refine ⟨?_, hmain.2.2 (by show (6 : Nat) < U64LIM; rw [u64lim_eq]; norm_num)⟩
  exact hmain.1 "2" ⟨20⟩ ⟨⟨"authenticate", none, ⟨30, 6, 5⟩⟩, ⟨none, []⟩, none, .Continue⟩
    (fun v hv => by
      have h2 : v = 2 := by
        have h3 := hv.symm.trans (by rfl : parseU64 "2" = some 2)
        exact (Option.some.injEq _ _ ▸ h3)
      show v ≤ (6 : Nat)
      omega)
    rfl

/-- Bytes of the frame `{"type":"PING","nonce":"1"}`. -/
def pingFrameBytes : List Nat :=
  [123, 34, 116, 121, 112, 101, 34, 58, 34, 80, 73, 78, 71, 34, 44,
   34, 110, 111, 110, 99, 101, 34, 58, 34, 49, 34, 125]

theorem pingFrameBytes_decodes : fromSlice pingFrameBytes = some (.Ping "1") := rfl

/-- C10 counterexample: the handler is not total over binary frames
either — a binary frame whose payload decodes to a server-side `PING`
message reaches the `unreachable!()` panic in `handle_socket_message`
(modelled as `none`), so totality over text/binary/close fails. -/
theorem c10_counterexample :
    handleMessage ⟨"authenticate", none, Ping.default⟩ ⟨none, []⟩
        (.binary pingFrameBytes) = none :=
  rfl

/-- C10 (amended): every protocol-level `Ping` or `Pong` control frame
reaches `todo!()` and panics instead of returning a continuation or an
error; close frames and undecodable text frames return normally, but
text/binary frames decoding to `Auth` or `Ping` panic via
`unreachable!()`, while frames decoding to `Response` return normally. -/
theorem c10_frame_handler (st : ReaderState) (chan : EventChan)
    (payload bs : List Nat) (r : Option CloseFrame) (s : String) :
    (handleMessage st chan (.ping payload) = none) ∧
    (handleMessage st chan (.pong payload) = none) ∧
    ((handleMessage st chan (.close r)).isSome) ∧
    (fromStr s = none → (handleMessage st chan (.text s)).isSome) ∧
    (∀ nonce tok, fromSlice bs = some (.Auth nonce tok) →
      handleMessage st chan (.binary bs) = none) ∧
    (∀ nonce, fromSlice bs = some (.Ping nonce) →
      handleMessage st chan (.binary bs) = none) ∧
    (∀ nonce, fromSlice bs = some (.Response nonce) →
      (handleMessage st chan (.binary bs)).isSome) := by
  refine ⟨rfl, rfl, rfl, fun h => ?_, fun nonce tok h => ?_, fun nonce h => ?_,
    fun nonce h => ?_⟩
  · simp [handleMessage, h]
  · simp [handleMessage, h, handleSocketMessage]
  · simp [handleMessage, h, handleSocketMessage]
  · simp only [handleMessage, h, Option.isSome_map]
    by_cases he : st.authNonce = nonce
    · cases hp : st.authPending <;> simp [handleSocketMessage, he, hp]
    · simp [handleSocketMessage, he]

/-- Witness for C10: a protocol-level ping control frame and a binary
frame decoding to a server-side `PING` message both panic. -/
theorem c10_frame_handler_witness :
    handleMessage ⟨"authenticate", none, Ping.default⟩ ⟨none, []⟩ (.ping [1, 2]) = none ∧
    handleMessage ⟨"authenticate", none, Ping.default⟩ ⟨none, []⟩
        (.binary pingFrameBytes) = none :=
  ⟨(c10_frame_handler ⟨"authenticate", none, Ping.default⟩ ⟨none, []⟩ [1, 2]
      pingFrameBytes none "").1,
   (c10_frame_handler ⟨"authenticate", none, Ping.default⟩ ⟨none, []⟩ [1, 2]
      pingFrameBytes none "").2.2.2.2.2.1 "1" pingFrameBytes_decodes⟩

end Trovo
